import Mathlib

/-!
Verification of the PokeForge SDK HTTP client core: error classification
(`errors.py`), retry/backoff delay computation, header construction, query
filtering and the request/retry loop (`http.py`), token management
(`auth.py`), and pagination (`pagination.py`).

Python `Optional` values are modelled as `Option`, Python truthiness on
optional strings / ints is modelled explicitly (`pyTruthy`, `pyTruthyInt`:
`None`, the empty string and `0` are falsy), floats are modelled as exact
rationals, and exceptions as `Except`.
-/

/-- Problem-details body: the fields of `ProblemDetails` the client core
reads (`title`, `detail`).  A `none` body stands for the absence of a
parseable JSON body; a body that parses to an empty object behaves exactly
like `⟨none, none⟩` here. -/
structure PD where
  title : Option String
  detail : Option String
deriving DecidableEq, Repr

/-- Error kinds: one per exception class in `errors.py`.  `generic`
corresponds to the base `PokeForgeError` class. -/
inductive ApiErrorKind where
  | validation
  | authentication
  | forbidden
  | notFound
  | rateLimit
  | timeout
  | network
  | generic
deriving DecidableEq, Repr

/-- Error value: the observable fields of a raised `PokeForgeError`
(`kind` = dynamic class, `status`, `message`, and `retry_after` which is
only ever set on `RateLimitError`). -/
structure ApiError where
  kind : ApiErrorKind
  status : Nat
  message : String
  retry_after : Option Int
deriving DecidableEq, Repr

/-- Python truthiness on an optional string: `None` and `""` are falsy. -/
def pyTruthy : Option String → Option String
  | some s => if s = "" then none else some s
  | none => none

/-- Python truthiness on an optional integer: `None` and `0` are falsy. -/
def pyTruthyInt : Option Int → Option Int
  | some n => if n = 0 then none else some n
  | none => none

/-- Embedding of `PokeForgeError.from_response` (errors.py, lines 26-57):
message is the truthy `title`, else the truthy `detail`, else
`HTTP status error`; the class is selected from the status via
`error_map`, each subclass pinning its own status code. -/
def from_response (status : Nat) (body : Option PD) : ApiError :=
  let message := ((pyTruthy (body.bind PD.title)).or
    (pyTruthy (body.bind PD.detail))).getD
    ("HTTP " ++ toString status ++ " error")
  if status = 400 then ⟨ApiErrorKind.validation, 400, message, none⟩
  else if status = 401 then ⟨ApiErrorKind.authentication, 401, message, none⟩
  else if status = 403 then ⟨ApiErrorKind.forbidden, 403, message, none⟩
  else if status = 404 then ⟨ApiErrorKind.notFound, 404, message, none⟩
  else if status = 429 then ⟨ApiErrorKind.rateLimit, 429, message, none⟩
  else ⟨ApiErrorKind.generic, status, message, none⟩

/-- Value of a string of decimal digits; `none` when empty or when any
character is not a digit. -/
def digitsToNat (cs : List Char) : Option Nat :=
  if cs = [] then none
  else if cs.all Char.isDigit then
    some (cs.foldl (fun a c => a * 10 + (c.toNat - 48)) 0)
  else none

/-- Characters of a string with surrounding whitespace removed. -/
def trimChars (s : String) : List Char :=
  ((s.toList.dropWhile Char.isWhitespace).reverse.dropWhile Char.isWhitespace).reverse

/-- Embedding of the Python `int(s)` conversion on strings: surrounding
whitespace is stripped, an optional sign is allowed, and the remainder must
be a nonempty digit string; `none` models the `ValueError` raised
otherwise. -/
def pyInt (s : String) : Option Int :=
  match trimChars s with
  | '-' :: cs => (digitsToNat cs).map (fun n => -(n : Int))
  | '+' :: cs => (digitsToNat cs).map (fun n => (n : Int))
  | cs => (digitsToNat cs).map (fun n => (n : Int))

/-- Embedding of `RetryConfig` (config.py): delays are seconds, modelled as
exact rationals. -/
structure RetryConfig where
  base_delay : ℚ
  max_delay : ℚ
  exponential : Bool

/-- Default `RetryConfig()` values from config.py. -/
def defaultRetryConfig : RetryConfig := ⟨1, 30, true⟩

/-- Embedding of `HttpClient._calculate_delay` (http.py, lines 167-178).
The rate-limit hint branch is guarded by `isinstance(error, RateLimitError)
and error.retry_after`, i.e. by Python truthiness of the optional integer:
a `retry_after` of `0` falls through to the backoff branches. -/
def calculate_delay (rc : RetryConfig) (attempt : Nat) (error : Option ApiError) : ℚ :=
  match (match error with
    | some e =>
      if e.kind = ApiErrorKind.rateLimit then pyTruthyInt e.retry_after else none
    | none => none) with
  | some n => min ((n : ℚ) / 1000) rc.max_delay
  | none =>
    if rc.exponential then min (rc.base_delay * 2 ^ (attempt - 1)) rc.max_delay
    else rc.base_delay

/-- Authentication configuration (config.py): none, `StaticAuth`, or
`DynamicAuth`.  The dynamic callback is modelled as a sequence of results
indexed by the number of prior invocations, so freshness of each
consultation is observable. -/
inductive AuthCfg where
  | noAuth : AuthCfg
  | static (token : String) : AuthCfg
  | dynamic (get : Nat → Option String) : AuthCfg

/-- Embedding of `TokenManager.get_token` (auth.py, lines 23-34) together
with the constructor: for `StaticAuth` the stored token is returned when
truthy (the guard is `if self._static_token:`); for `DynamicAuth` the
callback is invoked (the invocation counter `k` advances); otherwise
`none`.  Returns the token and the updated invocation counter. -/
def get_token : AuthCfg → Nat → Option String × Nat
  | AuthCfg.noAuth, k => (none, k)
  | AuthCfg.static t, k => if t = "" then (none, k) else (some t, k)
  | AuthCfg.dynamic f, k => (f k, k + 1)

/-- Embedding of `HttpClient._build_headers` (http.py, lines 141-147): the
`Authorization` entry is added under `if token:`, i.e. only for a truthy
(non-null, nonempty) token. -/
def build_headers (token : Option String) : List (String × String) :=
  match pyTruthy token with
  | some t => [("Authorization", "Bearer " ++ t)]
  | none => []

/-- Query-parameter value: `nullV` models Python `None`. -/
inductive QueryVal where
  | nullV
  | strV (s : String)
  | intV (n : Int)
  | boolV (b : Bool)
deriving DecidableEq, Repr

/-- Embedding of `HttpClient._filter_none` (http.py, lines 180-183): the
dict comprehension keeps exactly the entries whose value `is not None`. -/
def filter_none (d : List (String × QueryVal)) : List (String × QueryVal) :=
  d.filter (fun kv => kv.2 ≠ QueryVal.nullV)

/-- HTTP response as observed by one physical attempt: status code, parsed
JSON body (`none` when the body is absent or unparseable), the value of the
`retry-after` header (`none` when the header is absent), and whether the
`content-type` declares JSON. -/
structure Response where
  status : Nat
  body : Option PD
  retryAfter : Option String
  contentTypeJson : Bool

/-- Outcome of one physical HTTP attempt at the transport level, mirroring
the exception classes caught in `HttpClient.request`: an HTTP response, an
`httpx.TimeoutException`, an `httpx.NetworkError`, or any other
exception. -/
inductive TransportOutcome where
  | response (r : Response)
  | timeoutExc
  | networkExc
  | otherExc (msg : String)

/-- Conversion of the `retry-after` header to milliseconds (http.py, line
159): `int(header) * 1000 if header else None`.  A falsy header (absent or
empty) yields `none`; a truthy unparseable header raises `ValueError`,
modelled as `Except.error`. -/
def retryMsOf (h? : Option String) : Except String (Option Int) :=
  match pyTruthy h? with
  | some h =>
    match pyInt h with
    | some n => Except.ok (some (n * 1000))
    | none => Except.error ("invalid literal for int with base 10: " ++ h)
  | none => Except.ok none

/-- Embedding of `HttpClient._handle_error_response` (http.py, lines
149-165): on 429 the header is converted first (possibly raising), then the
classified error gets its `retry_after` field set when it is a
`RateLimitError`; any other status is classified directly. -/
def handle_error_response (r : Response) : Except String ApiError :=
  if r.status = 429 then
    match retryMsOf r.retryAfter with
    | Except.error m => Except.error m
    | Except.ok ms =>
      let e := from_response r.status r.body
      Except.ok
        (if e.kind = ApiErrorKind.rateLimit then ⟨e.kind, e.status, e.message, ms⟩ else e)
  else Except.ok (from_response r.status r.body)

/-- Embedding of `PokeForgeClientConfig` (config.py), restricted to the
fields the request pipeline reads. -/
structure Config where
  auth : AuthCfg
  timeout : ℚ
  retries : Nat
  retry_config : RetryConfig

/-- Result of the attempt loop: the returned value or raised error, the
number of physical attempts performed, the backoff delays slept, and the
header dictionary sent on each physical attempt (in attempt order). -/
structure LoopOut where
  result : Except ApiError (Option PD)
  attempts : Nat
  delays : List ℚ
  sent : List (List (String × String))

/-- Embedding of the `for attempt in range(1, max_attempts + 1)` loop of
`HttpClient.request` (http.py, lines 75-123).  `attempt` is the 1-indexed
attempt number, `left` the remaining iterations of the range (fuel), `ds`
and `hs` the delays and per-attempt headers accumulated so far.  When the
range is exhausted the defensive fallback of line 123 is returned.  Branches
mirror the source: success (204 / JSON / other), classified HTTP error with
retry on 429 or 5xx when attempts remain, immediate `TimeoutError` on
transport timeout, `NetworkError` retry on connectivity failure, and the
catch-all wrapper for unexpected exceptions (including those raised by the
error handler itself). -/
def attemptLoop (rc : RetryConfig) (world : Nat → TransportOutcome)
    (headers : List (String × String)) (mx : Nat) (tmoMsg : String) :
    Nat → Nat → List ℚ → List (List (String × String)) → LoopOut
  | attempt, 0, ds, hs =>
    ⟨Except.error ⟨ApiErrorKind.network, 0, "Request failed after retries", none⟩,
      attempt - 1, ds, hs⟩
  | attempt, left + 1, ds, hs =>
    match world attempt with
    | TransportOutcome.response r =>
      if 200 ≤ r.status ∧ r.status < 300 then
        if r.status = 204 then ⟨Except.ok none, attempt, ds, hs ++ [headers]⟩
        else if r.contentTypeJson then
          match r.body with
          | some v => ⟨Except.ok (some v), attempt, ds, hs ++ [headers]⟩
          | none =>
            ⟨Except.error
              ⟨ApiErrorKind.network, 0, "Unexpected error: JSON decode failure", none⟩,
              attempt, ds, hs ++ [headers]⟩
        else ⟨Except.ok none, attempt, ds, hs ++ [headers]⟩
      else
        match handle_error_response r with
        | Except.ok error =>
          if attempt < mx ∧ (r.status = 429 ∨ 500 ≤ r.status) then
            attemptLoop rc world headers mx tmoMsg (attempt + 1) left
              (ds ++ [calculate_delay rc attempt (some error)]) (hs ++ [headers])
          else ⟨Except.error error, attempt, ds, hs ++ [headers]⟩
        | Except.error m =>
          ⟨Except.error ⟨ApiErrorKind.network, 0, "Unexpected error: " ++ m, none⟩,
            attempt, ds, hs ++ [headers]⟩
    | TransportOutcome.timeoutExc =>
      ⟨Except.error ⟨ApiErrorKind.timeout, 0, tmoMsg, none⟩, attempt, ds, hs ++ [headers]⟩
    | TransportOutcome.networkExc =>
      if attempt < mx then
        attemptLoop rc world headers mx tmoMsg (attempt + 1) left
          (ds ++ [calculate_delay rc attempt none]) (hs ++ [headers])
      else ⟨Except.error ⟨ApiErrorKind.network, 0, "Network error", none⟩,
        attempt, ds, hs ++ [headers]⟩
    | TransportOutcome.otherExc m =>
      ⟨Except.error ⟨ApiErrorKind.network, 0, "Unexpected error: " ++ m, none⟩,
        attempt, ds, hs ++ [headers]⟩

/-- Message carried by the `TimeoutError` raised on a transport timeout
(http.py, line 109): the effective timeout is `timeout or config.timeout`
(Python truthiness: a `0` override falls back to the client-wide value). -/
def timeoutMessage (cfg : Config) (tmo : Option ℚ) : String :=
  "Request timed out after " ++
    toString (match tmo with
      | some t => if t = 0 then cfg.timeout else t
      | none => cfg.timeout) ++ "s"

/-- Result of one logical call: loop outcome plus the serialized query
parameters and the number of token-callback invocations. -/
structure RunOut where
  result : Except ApiError (Option PD)
  attempts : Nat
  delays : List ℚ
  sent : List (List (String × String))
  params : Option (List (String × QueryVal))
  token_calls : Nat

/-- Embedding of `HttpClient.request` (http.py, lines 56-123): headers are
built once, before the loop (line 70), query parameters are filtered under
`if query` truthiness (line 80), `max_attempts` is `1` when `no_retry` else
`retries + 1` (line 72), and the timeout shown in the `TimeoutError`
message is `timeout or config.timeout` (line 109).  The `world` function
gives the transport outcome of each 1-indexed physical attempt. -/
def request (cfg : Config) (world : Nat → TransportOutcome)
    (query : Option (List (String × QueryVal))) (tmo : Option ℚ)
    (no_retry : Bool) : RunOut :=
  let tk := get_token cfg.auth 0
  let headers := build_headers tk.1
  let params :=
    match query with
    | some q => if q = [] then none else some (filter_none q)
    | none => none
  let mx := if no_retry then 1 else cfg.retries + 1
  let out := attemptLoop cfg.retry_config world headers mx (timeoutMessage cfg tmo) 1 mx [] []
  ⟨out.result, out.attempts, out.delays, out.sent, params, tk.2⟩

/-- Embedding of `PageInfo` (pagination.py, lines 23-32). -/
structure PageInfo where
  page : Nat
  page_size : Nat
  total_count : Nat
  total_pages : Nat
  has_next : Bool
  has_previous : Bool
deriving DecidableEq, Repr

/-- Embedding of `Optional[Page[T]]` together with `Page` (pagination.py):
`mk` holds items, metadata and the bound fetch function; `nil` models the
Python value `None` (the fetcher of a real page never returns it, but the
loop in `to_list` guards against it with `if current_page:`).  Folding the
option into the type keeps the recursion structural. -/
inductive Page (T : Type) where
  | nil : Page T
  | mk (data : List T) (pagination : PageInfo)
      (fetcher : Nat → Nat → Page T) : Page T

/-- Items of the page (`Page.data`); `[]` for `nil`. -/
def Page.data {T : Type} : Page T → List T
  | Page.nil => []
  | Page.mk d _ _ => d

/-- Metadata of the page (`Page.pagination`). -/
def Page.info {T : Type} : Page T → Option PageInfo
  | Page.nil => none
  | Page.mk _ i _ => some i

/-- Embedding of `Page.next_page` (pagination.py, lines 58-64): `None` when
`has_next` is false, else the fetcher applied to `(page + 1, page_size)`. -/
def Page.next_page {T : Type} : Page T → Page T
  | Page.nil => Page.nil
  | Page.mk _ i f => if i.has_next then f (i.page + 1) i.page_size else Page.nil

/-- Embedding of `Page.to_list` (pagination.py, lines 78-88): the while
loop walks `next_page()` while the current page is present and has
`has_next`, extending the accumulated items with each fetched page's
data. -/
def Page.to_list {T : Type} : Page T → List T
  | Page.nil => []
  | Page.mk d i f =>
    d ++
      (if i.has_next then Page.to_list (f (i.page + 1) i.page_size) else [])

/-- Instrumentation of `to_list` with the number of fetcher invocations
performed: each loop iteration entered with `has_next` true calls the
fetcher exactly once. -/
def Page.to_listF {T : Type} : Page T → List T × Nat
  | Page.nil => ([], 0)
  | Page.mk d i f =>
    if i.has_next then
      let r := Page.to_listF (f (i.page + 1) i.page_size)
      (d ++ r.1, r.2 + 1)
    else (d, 0)

/-- Well-formedness of a page chain: the page is present, and whenever
`has_next` holds the fetcher produces a well-formed page at
`(page + 1, page_size)` — as every real fetcher does. -/
def Page.Wf {T : Type} : Page T → Prop
  | Page.nil => False
  | Page.mk _ i f =>
    i.has_next = true → Page.Wf (f (i.page + 1) i.page_size)

/-- Modelled from the spec (§4.5): the per-page item lists visited by the
full walk, namely the current page's items followed by the item lists of
each successive page obtained via `next_page()` while `has_next` holds. -/
def Page.specWalk {T : Type} : Page T → List (List T)
  | Page.nil => []
  | Page.mk d i f =>
    d ::
      (if i.has_next then Page.specWalk (f (i.page + 1) i.page_size) else [])

/-- A terminal third page holding one item. -/
def page3 : Page Nat := Page.mk [30] ⟨3, 1, 3, 3, false, true⟩ (fun _ _ => Page.nil)

/-- A middle second page whose fetcher serves page 3. -/
def page2 : Page Nat :=
  Page.mk [20] ⟨2, 1, 3, 3, true, true⟩
    (fun p s => if p = 3 ∧ s = 1 then page3 else Page.nil)

/-- An initial page whose fetcher serves page 2; together a 3-page chain
with one item per page and `has_next` true, true, false. -/
def page1 : Page Nat :=
  Page.mk [10] ⟨1, 1, 3, 3, true, false⟩
    (fun p s => if p = 2 ∧ s = 1 then page2 else Page.nil)

/-- Attempt `i` ends in an HTTP error response whose status is retryable
(429 or 5xx) and whose classification does not raise. -/
def RetryableHttpAt (world : Nat → TransportOutcome) (i : Nat) : Prop :=
  ∃ r e, world i = TransportOutcome.response r ∧
    handle_error_response r = Except.ok e ∧ (r.status = 429 ∨ 500 ≤ r.status)

/-- Attempt `i` ends in an outcome on which the loop retries when attempts
remain: a retryable HTTP error or a transport connectivity failure. -/
def ContinueAt (world : Nat → TransportOutcome) (i : Nat) : Prop :=
  RetryableHttpAt world i ∨ world i = TransportOutcome.networkExc

/-- Modelled from the spec (§4.2, as amended): the classified message is
the `title` when one is present and nonempty, else the `detail` when one is
present and nonempty, else the fallback `HTTP status error` text. -/
def specMessage (status : Nat) (body : Option PD) : String :=
  let fallback := "HTTP " ++ toString status ++ " error"
  match body with
  | none => fallback
  | some pd =>
    match pd.title, pd.detail with
    | some t, some d => if t ≠ "" then t else if d ≠ "" then d else fallback
    | some t, none => if t ≠ "" then t else fallback
    | none, some d => if d ≠ "" then d else fallback
    | none, none => fallback

/-- A server that answers every attempt with a bare 429 response carrying
an empty `Retry-After` header value. -/
def worldEmptyRetryAfter : Nat → TransportOutcome :=
  fun _ => TransportOutcome.response ⟨429, none, some "", false⟩

/-- A server that answers every attempt with a bare 429 response and no
`Retry-After` header. -/
def world429 : Nat → TransportOutcome :=
  fun _ => TransportOutcome.response ⟨429, none, none, false⟩

/-- A server that answers every attempt with a bare 500 response. -/
def world500 : Nat → TransportOutcome :=
  fun _ => TransportOutcome.response ⟨500, none, none, false⟩

/-- A token callback returning `A` on its first invocation and `B`
afterwards. -/
def tokenAB : Nat → Option String :=
  fun k => if k = 0 then some "A" else some "B"

/-- A transport that times out on every attempt. -/
def worldTimeout : Nat → TransportOutcome :=
  fun _ => TransportOutcome.timeoutExc

/-- A server that answers every attempt with a bare 429 response carrying
the unparseable `Retry-After` value `abc`. -/
def worldBadRetryAfter : Nat → TransportOutcome :=
  fun _ => TransportOutcome.response ⟨429, none, some "abc", false⟩


/-- A retryable status (429 or 5xx) is never a success status. -/
theorem not_success_of_retryable {s : Nat} (h : s = 429 ∨ 500 ≤ s) :
    ¬(200 ≤ s ∧ s < 300) := by
  rcases h with h | h <;> omega

/-- The classified message agrees with the spec-side message rule (title
when present and nonempty, else detail when present and nonempty, else the
fallback text). -/
theorem from_response_message (status : Nat) (body : Option PD) :
    (from_response status body).message = specMessage status body := by
  have hmsg : ∀ m : String,
      (if status = 400 then (⟨ApiErrorKind.validation, 400, m, none⟩ : ApiError)
      else if status = 401 then ⟨ApiErrorKind.authentication, 401, m, none⟩
      else if status = 403 then ⟨ApiErrorKind.forbidden, 403, m, none⟩
      else if status = 404 then ⟨ApiErrorKind.notFound, 404, m, none⟩
      else if status = 429 then ⟨ApiErrorKind.rateLimit, 429, m, none⟩
      else ⟨ApiErrorKind.generic, status, m, none⟩).message = m := by
    intro m; split_ifs <;> rfl
  unfold from_response
  rw [hmsg]
  rcases body with _ | ⟨t, d⟩
  · rfl
  · rcases t with _ | t
    · rcases d with _ | d
      · simp [pyTruthy, specMessage, Option.or]
      · by_cases hd : d = "" <;> simp [pyTruthy, specMessage, hd, Option.or]
    · rcases d with _ | d
      · by_cases ht : t = "" <;> simp [pyTruthy, specMessage, ht, Option.or]
      · by_cases ht : t = "" <;> by_cases hd : d = "" <;>
          simp [pyTruthy, specMessage, ht, hd, Option.or]

/-- Claim C2, counterexample: a `RateLimit` error that carries
`retryAfterMs = 0` does not yield `min(retryAfterMs, maxDelay) = 0`; the
Python truthiness guard `and error.retry_after` treats `0` as absent and
the code falls back to exponential backoff, giving `1` second under the
default configuration. -/
theorem claim2_counterexample :
    calculate_delay defaultRetryConfig 1
      (some ⟨ApiErrorKind.rateLimit, 429, "m", some 0⟩) = 1 ∧
    min ((0 : ℚ) / 1000) defaultRetryConfig.max_delay = 0 ∧ (1 : ℚ) ≠ 0 := by
  refine ⟨?_, ?_, by norm_num⟩
  · norm_num [calculate_delay, defaultRetryConfig, pyTruthyInt]
  · norm_num [defaultRetryConfig]

/-- Claim C2 (amended): when `nextDelay` is given a `RateLimit` error that
carries a nonzero `retryAfterMs`, the delay equals
`min(retryAfterMs / 1000, maxDelay)` seconds, independently of the attempt
number and of the `exponential` flag. -/
theorem claim2_rate_limit_hint (rc : RetryConfig) (attempt status : Nat)
    (msg : String) (n : Int) (hn : n ≠ 0) :
    calculate_delay rc attempt (some ⟨ApiErrorKind.rateLimit, status, msg, some n⟩) =
      min ((n : ℚ) / 1000) rc.max_delay := by
  simp [calculate_delay, pyTruthyInt, hn]

/-- Claim C2, witness: `retryAfterMs = 5000` with `maxDelay = 30` seconds
yields a delay of `5` seconds at attempt 4 with the exponential flag set. -/
theorem claim2_witness :
    calculate_delay ⟨1, 30, true⟩ 4
      (some ⟨ApiErrorKind.rateLimit, 429, "m", some 5000⟩) = 5 := by
  rw [claim2_rate_limit_hint ⟨1, 30, true⟩ 4 429 "m" 5000 (by norm_num)]
  norm_num

/-- Claim C4, counterexample: for a 400 response whose body carries the
title `""` (present) and the detail `bad`, the claimed rule `title if
present` predicts the message `""`, but the code tests Python truthiness of
the title and uses the detail instead. -/
theorem claim4_counterexample :
    (some (⟨some "", some "bad"⟩ : PD)).bind PD.title = some "" ∧
    (from_response 400 (some ⟨some "", some "bad"⟩)).message = "bad" ∧
    "bad" ≠ "" := by
  refine ⟨rfl, ?_, by decide⟩
  decide

/-- Claim C4 (amended): `classify(status, body)` yields `Validation` for
400, `Authentication` for 401, `Forbidden` for 403, `NotFound` for 404,
`RateLimit` for 429 and `Generic` for any other status, carrying the
status; the message is the body's title if present and nonempty, else its
detail if present and nonempty, else `HTTP status error`; a 404 body with
title `Not Found` yields `NotFound` with message `Not Found`. -/
theorem claim4_classification (status : Nat) (body : Option PD) :
    (from_response status body).status = status ∧
    (status = 400 → (from_response status body).kind = ApiErrorKind.validation) ∧
    (status = 401 → (from_response status body).kind = ApiErrorKind.authentication) ∧
    (status = 403 → (from_response status body).kind = ApiErrorKind.forbidden) ∧
    (status = 404 → (from_response status body).kind = ApiErrorKind.notFound) ∧
    (status = 429 → (from_response status body).kind = ApiErrorKind.rateLimit) ∧
    (status ≠ 400 → status ≠ 401 → status ≠ 403 → status ≠ 404 → status ≠ 429 →
      (from_response status body).kind = ApiErrorKind.generic) ∧
    (from_response status body).message = specMessage status body ∧
    from_response 404 (some ⟨some "Not Found", none⟩) =
      ⟨ApiErrorKind.notFound, 404, "Not Found", none⟩ := by
  refine ⟨?_, ?_, ?_, ?_, ?_, ?_, ?_, from_response_message status body, by decide⟩
  all_goals unfold from_response
  all_goals split_ifs <;> simp_all

/-- Claim C4, witness: the classification at a concrete 403 input with a
detail-only body. -/
theorem claim4_witness :
    (from_response 403 (some ⟨none, some "denied"⟩)).kind = ApiErrorKind.forbidden ∧
    (from_response 403 (some ⟨none, some "denied"⟩)).message =
      specMessage 403 (some ⟨none, some "denied"⟩) :=
  ⟨(claim4_classification 403 (some ⟨none, some "denied"⟩)).2.2.2.1 rfl,
    (claim4_classification 403 (some ⟨none, some "denied"⟩)).2.2.2.2.2.2.2.1⟩

/-- Claim C6: with `exponential = true`, nonnegative delays and no
rate-limit hint, the delay at 1-indexed attempt `a` is
`min(baseDelay * 2 ^ (a - 1), maxDelay)`, monotonically non-decreasing in
the attempt number, and never exceeds `maxDelay`. -/
theorem claim6_exponential_backoff (rc : RetryConfig) (a b : Nat)
    (hbase : 0 ≤ rc.base_delay) (_hmax : 0 ≤ rc.max_delay)
    (hexp : rc.exponential = true) (hab : a ≤ b) :
    calculate_delay rc a none = min (rc.base_delay * 2 ^ (a - 1)) rc.max_delay ∧
    calculate_delay rc a none ≤ calculate_delay rc b none ∧
    calculate_delay rc a none ≤ rc.max_delay := by
  refine ⟨by simp [calculate_delay, hexp], ?_, ?_⟩
  · simp only [calculate_delay, hexp, if_true]
    refine min_le_min ?_ le_rfl
    refine mul_le_mul_of_nonneg_left ?_ hbase
    exact pow_le_pow_right₀ (by norm_num) (Nat.sub_le_sub_right hab 1)
  · simp only [calculate_delay, hexp, if_true]
    exact min_le_right _ _

/-- Claim C6, witness: concrete instantiation at attempts 2 and 3 with the
default retry configuration. -/
theorem claim6_witness :
    calculate_delay ⟨1, 30, true⟩ 2 none = min ((1 : ℚ) * 2 ^ (2 - 1)) 30 ∧
    calculate_delay ⟨1, 30, true⟩ 2 none ≤ calculate_delay ⟨1, 30, true⟩ 3 none ∧
    calculate_delay ⟨1, 30, true⟩ 2 none ≤ (30 : ℚ) :=
  claim6_exponential_backoff ⟨1, 30, true⟩ 2 3 (by norm_num) (by norm_num) rfl
    (by norm_num)

/-- Claim C8, counterexample: a callback-based provider yielding the empty
string yields a non-null token, yet `_build_headers` adds no
`Authorization` header, because the guard is Python truthiness. -/
theorem claim8_counterexample :
    (get_token (AuthCfg.dynamic (fun _ => some "")) 0).1 = some "" ∧
    build_headers (get_token (AuthCfg.dynamic (fun _ => some "")) 0).1 = [] := by
  exact ⟨rfl, rfl⟩

/-- Claim C8 (amended): the headers carry
`Authorization: Bearer token` exactly when the token provider yields a
non-null, nonempty token; a null or empty token yields no `Authorization`
entry. -/
theorem claim8_auth_header (token : Option String) :
    (∀ t, token = some t → t ≠ "" →
      build_headers token = [("Authorization", "Bearer " ++ t)]) ∧
    ((token = none ∨ token = some "") → build_headers token = []) := by
  constructor
  · intro t ht hne
    subst ht
    simp [build_headers, pyTruthy, hne]
  · intro h
    rcases h with h | h <;> subst h <;> simp [build_headers, pyTruthy]

/-- Claim C8, witness: a concrete nonempty token produces the header and a
null token produces none. -/
theorem claim8_witness :
    build_headers (some "tok") = [("Authorization", "Bearer tok")] ∧
    build_headers none = [] :=
  ⟨(claim8_auth_header (some "tok")).1 "tok" rfl (by decide),
    (claim8_auth_header none).2 (Or.inl rfl)⟩

/-- Claim C9: in a logical call, exactly the null-valued query entries are
stripped before serialization (the sent parameters are a sublist of the
query containing precisely its non-null entries, order preserved), and
empty-string, zero and false values are kept, as a concrete query shows. -/
theorem claim9_query_filtering (cfg : Config) (world : Nat → TransportOutcome)
    (tmo : Option ℚ) (no_retry : Bool) (q : List (String × QueryVal)) :
    List.Sublist ((request cfg world (some q) tmo no_retry).params.getD []) q ∧
    (∀ k v, (k, v) ∈ (request cfg world (some q) tmo no_retry).params.getD [] ↔
      ((k, v) ∈ q ∧ v ≠ QueryVal.nullV)) ∧
    (request cfg world
        (some [("a", QueryVal.strV ""), ("b", QueryVal.intV 0),
          ("c", QueryVal.boolV false), ("d", QueryVal.nullV)]) tmo no_retry).params =
      some [("a", QueryVal.strV ""), ("b", QueryVal.intV 0),
        ("c", QueryVal.boolV false)] := by
  have hparams : ∀ q' : List (String × QueryVal),
      (request cfg world (some q') tmo no_retry).params =
        if q' = [] then none else some (filter_none q') := by
    intro q'
    simp [request]
  refine ⟨?_, ?_, ?_⟩
  · rw [hparams]
    by_cases hq : q = []
    · simp [hq]
    · simp only [hq, if_false, Option.getD_some]
      exact List.filter_sublist q
  · intro k v
    rw [hparams]
    by_cases hq : q = []
    · simp [hq]
    · simp only [hq, if_false, Option.getD_some, filter_none, List.mem_filter]
      simp
  · rw [hparams]
    decide

/-- One unfolding of the loop with fuel remaining: the iteration either
terminates at the current attempt (recording one more sent header
dictionary and no new delay), or recurses to the next attempt with one
more delay, the latter only when `attempt < mx`. -/
theorem attemptLoop_succ_cases (rc : RetryConfig) (world : Nat → TransportOutcome)
    (headers : List (String × String)) (mx : Nat) (m : String)
    (attempt n : Nat) (ds : List ℚ) (hs : List (List (String × String))) :
    (∃ res, attemptLoop rc world headers mx m attempt (n + 1) ds hs =
      ⟨res, attempt, ds, hs ++ [headers]⟩) ∨
    (attempt < mx ∧ ∃ d, attemptLoop rc world headers mx m attempt (n + 1) ds hs =
      attemptLoop rc world headers mx m (attempt + 1) n (ds ++ [d]) (hs ++ [headers])) := by
  rw [attemptLoop]
  cases hw : world attempt with
  | response r =>
    by_cases hsuc : 200 ≤ r.status ∧ r.status < 300
    · by_cases h204 : r.status = 204
      · exact Or.inl ⟨Except.ok none, by simp [hsuc, h204]⟩
      · by_cases hct : r.contentTypeJson
        · cases hb : r.body with
          | some v => exact Or.inl ⟨Except.ok (some v), by simp [hsuc, h204, hct, hb]⟩
          | none =>
            exact Or.inl ⟨Except.error
              ⟨ApiErrorKind.network, 0, "Unexpected error: JSON decode failure", none⟩,
              by simp [hsuc, h204, hct, hb]⟩
        · exact Or.inl ⟨Except.ok none, by simp [hsuc, h204, hct]⟩
    · cases he : handle_error_response r with
      | ok e =>
        by_cases hretry : attempt < mx ∧ (r.status = 429 ∨ 500 ≤ r.status)
        · exact Or.inr ⟨hretry.1, calculate_delay rc attempt (some e),
            by simp [hsuc, he, hretry]⟩
        · exact Or.inl ⟨Except.error e, by simp [hsuc, he, hretry]⟩
      | error msg =>
        exact Or.inl ⟨Except.error
          ⟨ApiErrorKind.network, 0, "Unexpected error: " ++ msg, none⟩,
          by simp [hsuc, he]⟩
  | timeoutExc =>
    exact Or.inl ⟨Except.error ⟨ApiErrorKind.timeout, 0, m, none⟩, rfl⟩
  | networkExc =>
    by_cases hlt : attempt < mx
    · exact Or.inr ⟨hlt, calculate_delay rc attempt none, by simp [hlt]⟩
    · exact Or.inl ⟨Except.error ⟨ApiErrorKind.network, 0, "Network error", none⟩,
        by simp [hlt]⟩
  | otherExc msg =>
    exact Or.inl ⟨Except.error
      ⟨ApiErrorKind.network, 0, "Unexpected error: " ++ msg, none⟩, rfl⟩

/-- The loop performs at least `attempt - 1` attempts (counting from the
state where `attempt` is the next 1-indexed attempt number). -/
theorem attemptLoop_attempts_ge (rc : RetryConfig) (world : Nat → TransportOutcome)
    (headers : List (String × String)) (mx : Nat) (m : String) :
    ∀ left attempt ds hs,
      attempt - 1 ≤ (attemptLoop rc world headers mx m attempt left ds hs).attempts := by
  intro left
  induction left with
  | zero => intro attempt ds hs; simp [attemptLoop]
  | succ n ih =>
    intro attempt ds hs
    rcases attemptLoop_succ_cases rc world headers mx m attempt n ds hs with
      ⟨res, heq⟩ | ⟨hlt, d, heq⟩
    · rw [heq]; simp
    · rw [heq]
      have := ih (attempt + 1) (ds ++ [d]) (hs ++ [headers])
      omega

/-- The loop performs at most `attempt - 1 + left` attempts. -/
theorem attemptLoop_attempts_le (rc : RetryConfig) (world : Nat → TransportOutcome)
    (headers : List (String × String)) (mx : Nat) (m : String) :
    ∀ left attempt ds hs,
      (attemptLoop rc world headers mx m attempt left ds hs).attempts ≤
        attempt - 1 + left := by
  intro left
  induction left with
  | zero => intro attempt ds hs; simp [attemptLoop]
  | succ n ih =>
    intro attempt ds hs
    rcases attemptLoop_succ_cases rc world headers mx m attempt n ds hs with
      ⟨res, heq⟩ | ⟨hlt, d, heq⟩
    · rw [heq]; simp; omega
    · rw [heq]
      have := ih (attempt + 1) (ds ++ [d]) (hs ++ [headers])
      omega

/-- The header dictionary recorded for every physical attempt is the one
built before the loop: the sent list is `headers` replicated once per
attempt performed. -/
theorem attemptLoop_sent (rc : RetryConfig) (world : Nat → TransportOutcome)
    (headers : List (String × String)) (mx : Nat) (m : String) :
    ∀ left attempt ds hs, 1 ≤ attempt →
      (attemptLoop rc world headers mx m attempt left ds hs).sent =
        hs ++ List.replicate
          ((attemptLoop rc world headers mx m attempt left ds hs).attempts + 1 - attempt)
          headers := by
  intro left
  induction left with
  | zero =>
    intro attempt ds hs h1
    have h0 : attempt - 1 + 1 - attempt = 0 := by omega
    simp [attemptLoop, h0]
  | succ n ih =>
    intro attempt ds hs h1
    rcases attemptLoop_succ_cases rc world headers mx m attempt n ds hs with
      ⟨res, heq⟩ | ⟨hlt, d, heq⟩
    · rw [heq]
      have h2 : attempt + 1 - attempt = 1 := by omega
      simp [h2]
    · rw [heq]
      have hge := attemptLoop_attempts_ge rc world headers mx m n (attempt + 1)
        (ds ++ [d]) (hs ++ [headers])
      rw [ih (attempt + 1) (ds ++ [d]) (hs ++ [headers]) (by omega)]
      have h2 : (attemptLoop rc world headers mx m (attempt + 1) n (ds ++ [d])
            (hs ++ [headers])).attempts + 1 - attempt =
          ((attemptLoop rc world headers mx m (attempt + 1) n (ds ++ [d])
            (hs ++ [headers])).attempts + 1 - (attempt + 1)) + 1 := by
        omega
      rw [h2, List.replicate_succ]
      simp

/-- Step on a retryable HTTP error: when the attempt yields a 429 or 5xx
response whose classification succeeds and attempts remain, the loop sleeps
with the delay computed from the classified error and continues. -/
theorem attemptLoop_step_http (rc : RetryConfig) (world : Nat → TransportOutcome)
    (headers : List (String × String)) (mx : Nat) (m : String)
    (attempt n : Nat) (ds : List ℚ) (hs : List (List (String × String)))
    (r : Response) (e : ApiError)
    (hw : world attempt = TransportOutcome.response r)
    (he : handle_error_response r = Except.ok e)
    (hst : r.status = 429 ∨ 500 ≤ r.status) (hlt : attempt < mx) :
    attemptLoop rc world headers mx m attempt (n + 1) ds hs =
      attemptLoop rc world headers mx m (attempt + 1) n
        (ds ++ [calculate_delay rc attempt (some e)]) (hs ++ [headers]) := by
  have hns := not_success_of_retryable hst
  rw [attemptLoop]
  simp [hw, hns, he, hst, hlt]

/-- Step on a connectivity failure: when the attempt raises a network error
and attempts remain, the loop sleeps with the hint-free delay and
continues. -/
theorem attemptLoop_step_net (rc : RetryConfig) (world : Nat → TransportOutcome)
    (headers : List (String × String)) (mx : Nat) (m : String)
    (attempt n : Nat) (ds : List ℚ) (hs : List (List (String × String)))
    (hw : world attempt = TransportOutcome.networkExc) (hlt : attempt < mx) :
    attemptLoop rc world headers mx m attempt (n + 1) ds hs =
      attemptLoop rc world headers mx m (attempt + 1) n
        (ds ++ [calculate_delay rc attempt none]) (hs ++ [headers]) := by
  rw [attemptLoop]
  simp [hw, hlt]

/-- Terminal case on an HTTP error that is not retried (either no attempts
remain or the status is neither 429 nor 5xx): the classified error is
raised at this attempt, with no further delay. -/
theorem attemptLoop_term_http (rc : RetryConfig) (world : Nat → TransportOutcome)
    (headers : List (String × String)) (mx : Nat) (m : String)
    (attempt n : Nat) (ds : List ℚ) (hs : List (List (String × String)))
    (r : Response) (e : ApiError)
    (hw : world attempt = TransportOutcome.response r)
    (hns : ¬(200 ≤ r.status ∧ r.status < 300))
    (he : handle_error_response r = Except.ok e)
    (hno : ¬(attempt < mx ∧ (r.status = 429 ∨ 500 ≤ r.status))) :
    attemptLoop rc world headers mx m attempt (n + 1) ds hs =
      ⟨Except.error e, attempt, ds, hs ++ [headers]⟩ := by
  rw [attemptLoop]
  simp [hw, hns, he, hno]

/-- Terminal case on a transport timeout: the loop raises the timeout error
at this attempt, performing no further attempts and adding no delay. -/
theorem attemptLoop_term_timeout (rc : RetryConfig) (world : Nat → TransportOutcome)
    (headers : List (String × String)) (mx : Nat) (m : String)
    (attempt n : Nat) (ds : List ℚ) (hs : List (List (String × String)))
    (hw : world attempt = TransportOutcome.timeoutExc) :
    attemptLoop rc world headers mx m attempt (n + 1) ds hs =
      ⟨Except.error ⟨ApiErrorKind.timeout, 0, m, none⟩, attempt, ds, hs ++ [headers]⟩ := by
  rw [attemptLoop]
  simp [hw]

/-- Terminal case on a classification exception: when the error handler
itself raises (unparseable `Retry-After`), the catch-all wrapper raises a
`Network` error with the `Unexpected error:` prefix at this attempt. -/
theorem attemptLoop_term_handler (rc : RetryConfig) (world : Nat → TransportOutcome)
    (headers : List (String × String)) (mx : Nat) (m : String)
    (attempt n : Nat) (ds : List ℚ) (hs : List (List (String × String)))
    (r : Response) (msg : String)
    (hw : world attempt = TransportOutcome.response r)
    (hns : ¬(200 ≤ r.status ∧ r.status < 300))
    (he : handle_error_response r = Except.error msg) :
    attemptLoop rc world headers mx m attempt (n + 1) ds hs =
      ⟨Except.error ⟨ApiErrorKind.network, 0, "Unexpected error: " ++ msg, none⟩,
        attempt, ds, hs ++ [headers]⟩ := by
  rw [attemptLoop]
  simp [hw, hns, he]

/-- Advancing over a prefix of continuing attempts: if the `n` attempts
starting at `a` all end in retryable outcomes with attempts remaining, the
loop reaches attempt `a + n` having slept once per continued attempt and
sent the same headers each time. -/
theorem attemptLoop_prefix (rc : RetryConfig) (world : Nat → TransportOutcome)
    (headers : List (String × String)) (mx : Nat) (m : String) :
    ∀ n a left ds hs,
      (∀ i, a ≤ i → i < a + n → ContinueAt world i ∧ i < mx) →
      n ≤ left →
      ∃ ds2 : List ℚ, ds2.length = n ∧
        attemptLoop rc world headers mx m a left ds hs =
          attemptLoop rc world headers mx m (a + n) (left - n)
            (ds ++ ds2) (hs ++ List.replicate n headers) := by
  intro n
  induction n with
  | zero =>
    intro a left ds hs _ _
    exact ⟨[], rfl, by simp⟩
  | succ k ih =>
    intro a left ds hs hcont hle
    obtain ⟨hca, hamx⟩ := hcont a le_rfl (by omega)
    obtain ⟨l, rfl⟩ : ∃ l, left = l + 1 := ⟨left - 1, by omega⟩
    have hstep : ∃ d, attemptLoop rc world headers mx m a (l + 1) ds hs =
        attemptLoop rc world headers mx m (a + 1) l (ds ++ [d]) (hs ++ [headers]) := by
      rcases hca with ⟨r, e, hw, he, hst⟩ | hw
      · exact ⟨calculate_delay rc a (some e),
          attemptLoop_step_http rc world headers mx m a l ds hs r e hw he hst hamx⟩
      · exact ⟨calculate_delay rc a none,
          attemptLoop_step_net rc world headers mx m a l ds hs hw hamx⟩
    obtain ⟨d, hd⟩ := hstep
    obtain ⟨ds2, hlen, heq⟩ := ih (a + 1) l (ds ++ [d]) (hs ++ [headers])
      (fun i h1 h2 => hcont i (by omega) (by omega)) (by omega)
    refine ⟨d :: ds2, by simp [hlen], ?_⟩
    rw [hd, heq]
    have h1 : a + 1 + k = a + (k + 1) := by omega
    have h2 : l - k = l + 1 - (k + 1) := by omega
    rw [h1, h2]
    have h3 : (ds ++ [d]) ++ ds2 = ds ++ (d :: ds2) := by simp
    have h4 : (hs ++ [headers]) ++ List.replicate k headers =
        hs ++ List.replicate (k + 1) headers := by
      rw [List.replicate_succ]
      simp
    rw [h3, h4]

/-- With at least one unit of fuel, the loop performs at least the current
attempt. -/
theorem attemptLoop_attempts_ge_of_fuel (rc : RetryConfig)
    (world : Nat → TransportOutcome) (headers : List (String × String))
    (mx : Nat) (m : String) (left attempt : Nat) (ds : List ℚ)
    (hs : List (List (String × String))) (hl : 1 ≤ left) :
    attempt ≤ (attemptLoop rc world headers mx m attempt left ds hs).attempts := by
  obtain ⟨n, rfl⟩ : ∃ n, left = n + 1 := ⟨left - 1, by omega⟩
  rcases attemptLoop_succ_cases rc world headers mx m attempt n ds hs with
    ⟨res, heq⟩ | ⟨hlt, d, heq⟩
  · rw [heq]
  · rw [heq]
    have := attemptLoop_attempts_ge rc world headers mx m n (attempt + 1)
      (ds ++ [d]) (hs ++ [headers])
    omega

/-- Reaching attempt `k`: when every attempt before `k` continues and
`k ≤ mx`, the full loop equals the loop restarted at attempt `k`, carrying
one delay per continued attempt and remaining fuel. -/
theorem attemptLoop_reach (rc : RetryConfig) (world : Nat → TransportOutcome)
    (headers : List (String × String)) (mx : Nat) (m : String) (k : Nat)
    (hk1 : 1 ≤ k) (hkm : k ≤ mx)
    (hpre : ∀ i, 1 ≤ i → i < k → ContinueAt world i) :
    ∃ ds2 : List ℚ, ds2.length = k - 1 ∧
      attemptLoop rc world headers mx m 1 mx [] [] =
        attemptLoop rc world headers mx m k ((mx - k) + 1) ds2
          (List.replicate (k - 1) headers) := by
  obtain ⟨ds2, hlen, heq⟩ := attemptLoop_prefix rc world headers mx m (k - 1) 1 mx [] []
    (fun i h1 h2 => ⟨hpre i h1 (by omega), by omega⟩) (by omega)
  have h1 : 1 + (k - 1) = k := by omega
  have h2 : mx - (k - 1) = (mx - k) + 1 := by omega
  rw [h1, h2] at heq
  exact ⟨ds2, hlen, by simpa using heq⟩

/-- Helper: the classification of a bare 429 response with no usable
`Retry-After` hint. -/
theorem handle_429_clean (r : Response) (hst : r.status = 429)
    (hra : pyTruthy r.retryAfter = none) :
    handle_error_response r = Except.ok
      ⟨ApiErrorKind.rateLimit, 429, specMessage 429 r.body, none⟩ := by
  have hk : (from_response 429 r.body).kind = ApiErrorKind.rateLimit := by
    simp [from_response]
  have hs' : (from_response 429 r.body).status = 429 := by
    simp [from_response]
  have hm : (from_response 429 r.body).message = specMessage 429 r.body :=
    from_response_message 429 r.body
  simp only [handle_error_response, hst, if_true, retryMsOf, hra]
  simp [hk, hs', hm]

/-- Claim C1: the number of physical attempts of a logical call is bounded
by `maxAttempts = 1` when `no_retry` else `retries + 1`; when every attempt
yields a retryable (429 or 5xx) error response, exactly `maxAttempts`
physical calls are made and the error classified from the last response is
raised; and a non-429 4xx response is raised on the first attempt it
occurs, never retried. -/
theorem claim1_attempt_budget (cfg : Config) (world : Nat → TransportOutcome)
    (query : Option (List (String × QueryVal))) (tmo : Option ℚ)
    (no_retry : Bool) :
    ((request cfg world query tmo no_retry).attempts ≤
      (if no_retry then 1 else cfg.retries + 1)) ∧
    ((∀ i, 1 ≤ i → i ≤ (if no_retry then 1 else cfg.retries + 1) →
        RetryableHttpAt world i) →
      ∀ r e, world (if no_retry then 1 else cfg.retries + 1) =
          TransportOutcome.response r →
        handle_error_response r = Except.ok e →
        (request cfg world query tmo no_retry).result = Except.error e ∧
        (request cfg world query tmo no_retry).attempts =
          (if no_retry then 1 else cfg.retries + 1)) ∧
    (∀ k r e, 1 ≤ k → k ≤ (if no_retry then 1 else cfg.retries + 1) →
      (∀ i, 1 ≤ i → i < k → ContinueAt world i) →
      world k = TransportOutcome.response r →
      400 ≤ r.status → r.status < 500 → r.status ≠ 429 →
      handle_error_response r = Except.ok e →
      (request cfg world query tmo no_retry).result = Except.error e ∧
      (request cfg world query tmo no_retry).attempts = k) := by
  have hmx1 : 1 ≤ (if no_retry then 1 else cfg.retries + 1) := by
    cases no_retry <;> simp
  have hres : (request cfg world query tmo no_retry).result =
      (attemptLoop cfg.retry_config world (build_headers (get_token cfg.auth 0).1)
        (if no_retry then 1 else cfg.retries + 1) (timeoutMessage cfg tmo) 1
        (if no_retry then 1 else cfg.retries + 1) [] []).result := rfl
  have hatt : (request cfg world query tmo no_retry).attempts =
      (attemptLoop cfg.retry_config world (build_headers (get_token cfg.auth 0).1)
        (if no_retry then 1 else cfg.retries + 1) (timeoutMessage cfg tmo) 1
        (if no_retry then 1 else cfg.retries + 1) [] []).attempts := rfl
  refine ⟨?_, ?_, ?_⟩
  · rw [hatt]
    have := attemptLoop_attempts_le cfg.retry_config world
      (build_headers (get_token cfg.auth 0).1)
      (if no_retry then 1 else cfg.retries + 1) (timeoutMessage cfg tmo)
      (if no_retry then 1 else cfg.retries + 1) 1 [] []
    omega
  · intro hall r e hwmx he
    obtain ⟨ds2, hlen, heq⟩ := attemptLoop_reach cfg.retry_config world
      (build_headers (get_token cfg.auth 0).1)
      (if no_retry then 1 else cfg.retries + 1) (timeoutMessage cfg tmo)
      (if no_retry then 1 else cfg.retries + 1) hmx1 le_rfl
      (fun i h1 h2 => Or.inl (hall i h1 (by omega)))
    have hterm := attemptLoop_term_http cfg.retry_config world
      (build_headers (get_token cfg.auth 0).1)
      (if no_retry then 1 else cfg.retries + 1) (timeoutMessage cfg tmo)
      (if no_retry then 1 else cfg.retries + 1)
      ((if no_retry then 1 else cfg.retries + 1) -
        (if no_retry then 1 else cfg.retries + 1)) ds2
      (List.replicate ((if no_retry then 1 else cfg.retries + 1) - 1)
        (build_headers (get_token cfg.auth 0).1)) r e hwmx
      (by
        obtain ⟨r', e', hw', he', hst'⟩ := hall _ hmx1 le_rfl
        rw [hw'] at hwmx
        cases hwmx
        exact not_success_of_retryable hst')
      he (by omega)
    rw [hres, heq, hterm]
    rw [hatt, heq, hterm]
    exact ⟨rfl, rfl⟩
  · intro k r e hk1 hkm hpre hw h400 h500 h429 he
    obtain ⟨ds2, hlen, heq⟩ := attemptLoop_reach cfg.retry_config world
      (build_headers (get_token cfg.auth 0).1)
      (if no_retry then 1 else cfg.retries + 1) (timeoutMessage cfg tmo)
      k hk1 hkm hpre
    have hterm := attemptLoop_term_http cfg.retry_config world
      (build_headers (get_token cfg.auth 0).1)
      (if no_retry then 1 else cfg.retries + 1) (timeoutMessage cfg tmo)
      k ((if no_retry then 1 else cfg.retries + 1) - k) ds2
      (List.replicate (k - 1) (build_headers (get_token cfg.auth 0).1)) r e hw
      (by omega)
      he
      (by
        rintro ⟨-, hor⟩
        rcases hor with hor | hor <;> omega)
    rw [hres, heq, hterm]
    rw [hatt, heq, hterm]
    exact ⟨rfl, rfl⟩

/-- Claim C1, witness: with `retries = 2` and a server that always answers
429 with no `Retry-After` header, exactly 3 physical attempts are made and
the classified rate-limit error is raised. -/
theorem claim1_witness :
    (request ⟨AuthCfg.noAuth, 30, 2, defaultRetryConfig⟩ world429 none none
      false).result =
      Except.error ⟨ApiErrorKind.rateLimit, 429, "HTTP 429 error", none⟩ ∧
    (request ⟨AuthCfg.noAuth, 30, 2, defaultRetryConfig⟩ world429 none none
      false).attempts = 3 ∧
    (request ⟨AuthCfg.noAuth, 30, 2, defaultRetryConfig⟩
      (fun _ => TransportOutcome.response ⟨404, none, none, false⟩) none none
      false).result =
      Except.error ⟨ApiErrorKind.notFound, 404, "HTTP 404 error", none⟩ ∧
    (request ⟨AuthCfg.noAuth, 30, 2, defaultRetryConfig⟩
      (fun _ => TransportOutcome.response ⟨404, none, none, false⟩) none none
      false).attempts = 1 := by
  have h := (claim1_attempt_budget ⟨AuthCfg.noAuth, 30, 2, defaultRetryConfig⟩
    world429 none none false).2.1
    (fun i h1 h2 =>
      ⟨⟨429, none, none, false⟩,
        ⟨ApiErrorKind.rateLimit, 429, "HTTP 429 error", none⟩, rfl, rfl, Or.inl rfl⟩)
    ⟨429, none, none, false⟩
    ⟨ApiErrorKind.rateLimit, 429, "HTTP 429 error", none⟩ rfl rfl
  have h4 := (claim1_attempt_budget ⟨AuthCfg.noAuth, 30, 2, defaultRetryConfig⟩
    (fun _ => TransportOutcome.response ⟨404, none, none, false⟩) none none
    false).2.2 1 ⟨404, none, none, false⟩
    ⟨ApiErrorKind.notFound, 404, "HTTP 404 error", none⟩ le_rfl (by decide)
    (by intro i h1 h2; exact absurd h2 (by omega)) rfl (by decide) (by decide)
    (by decide) rfl
  exact ⟨h.1, h.2, h4.1, h4.2⟩

/-- Claim C3: a transport-level timeout on any reached attempt makes the
call fail immediately with the `Timeout` error — exactly `k` physical
attempts, no backoff delay for the failing attempt — even when attempts
remain; among the failure classes subject to the retry decision it is the
only one that always short-circuits: a connectivity failure and a
retryable HTTP error both lead to a second attempt when the budget allows
one. -/
theorem claim3_timeout_short_circuit (cfg : Config)
    (world : Nat → TransportOutcome) (query : Option (List (String × QueryVal)))
    (tmo : Option ℚ) (no_retry : Bool) :
    (∀ k, 1 ≤ k → k ≤ (if no_retry then 1 else cfg.retries + 1) →
      (∀ i, 1 ≤ i → i < k → ContinueAt world i) →
      world k = TransportOutcome.timeoutExc →
      (request cfg world query tmo no_retry).result =
        Except.error ⟨ApiErrorKind.timeout, 0, timeoutMessage cfg tmo, none⟩ ∧
      (request cfg world query tmo no_retry).attempts = k ∧
      (request cfg world query tmo no_retry).delays.length = k - 1) ∧
    (world 1 = TransportOutcome.networkExc →
      2 ≤ (if no_retry then 1 else cfg.retries + 1) →
      2 ≤ (request cfg world query tmo no_retry).attempts) ∧
    (RetryableHttpAt world 1 →
      2 ≤ (if no_retry then 1 else cfg.retries + 1) →
      2 ≤ (request cfg world query tmo no_retry).attempts) := by
  have hres : (request cfg world query tmo no_retry).result =
      (attemptLoop cfg.retry_config world (build_headers (get_token cfg.auth 0).1)
        (if no_retry then 1 else cfg.retries + 1) (timeoutMessage cfg tmo) 1
        (if no_retry then 1 else cfg.retries + 1) [] []).result := rfl
  have hatt : (request cfg world query tmo no_retry).attempts =
      (attemptLoop cfg.retry_config world (build_headers (get_token cfg.auth 0).1)
        (if no_retry then 1 else cfg.retries + 1) (timeoutMessage cfg tmo) 1
        (if no_retry then 1 else cfg.retries + 1) [] []).attempts := rfl
  have hdel : (request cfg world query tmo no_retry).delays =
      (attemptLoop cfg.retry_config world (build_headers (get_token cfg.auth 0).1)
        (if no_retry then 1 else cfg.retries + 1) (timeoutMessage cfg tmo) 1
        (if no_retry then 1 else cfg.retries + 1) [] []).delays := rfl
  refine ⟨?_, ?_, ?_⟩
  · intro k hk1 hkm hpre hw
    obtain ⟨ds2, hlen, heq⟩ := attemptLoop_reach cfg.retry_config world
      (build_headers (get_token cfg.auth 0).1)
      (if no_retry then 1 else cfg.retries + 1) (timeoutMessage cfg tmo)
      k hk1 hkm hpre
    have hterm := attemptLoop_term_timeout cfg.retry_config world
      (build_headers (get_token cfg.auth 0).1)
      (if no_retry then 1 else cfg.retries + 1) (timeoutMessage cfg tmo)
      k ((if no_retry then 1 else cfg.retries + 1) - k) ds2
      (List.replicate (k - 1) (build_headers (get_token cfg.auth 0).1)) hw
    rw [hres, heq, hterm]
    rw [hatt, heq, hterm]
    rw [hdel, heq, hterm]
    exact ⟨rfl, rfl, hlen⟩
  · intro hw hmx2
    rw [hatt]
    obtain ⟨n, hn⟩ : ∃ n, (if no_retry then 1 else cfg.retries + 1) = n + 1 :=
      ⟨(if no_retry then 1 else cfg.retries + 1) - 1, by omega⟩
    rw [hn, attemptLoop_step_net cfg.retry_config world
      (build_headers (get_token cfg.auth 0).1) (n + 1) (timeoutMessage cfg tmo)
      1 n [] [] hw (by omega)]
    exact attemptLoop_attempts_ge_of_fuel cfg.retry_config world
      (build_headers (get_token cfg.auth 0).1) (n + 1) (timeoutMessage cfg tmo)
      n 2 _ _ (by omega)
  · rintro ⟨r, e, hw, he, hst⟩ hmx2
    rw [hatt]
    obtain ⟨n, hn⟩ : ∃ n, (if no_retry then 1 else cfg.retries + 1) = n + 1 :=
      ⟨(if no_retry then 1 else cfg.retries + 1) - 1, by omega⟩
    rw [hn, attemptLoop_step_http cfg.retry_config world
      (build_headers (get_token cfg.auth 0).1) (n + 1) (timeoutMessage cfg tmo)
      1 n [] [] r e hw he hst (by omega)]
    exact attemptLoop_attempts_ge_of_fuel cfg.retry_config world
      (build_headers (get_token cfg.auth 0).1) (n + 1) (timeoutMessage cfg tmo)
      n 2 _ _ (by omega)

/-- Claim C3, witness: a timeout on attempt 1 of a 3-attempt budget fails
immediately with `Timeout`, never reaching attempt 2, while a network
failure in the same budget does reach attempt 2. -/
theorem claim3_witness :
    (request ⟨AuthCfg.noAuth, 30, 2, defaultRetryConfig⟩ worldTimeout none none
      false).result =
      Except.error ⟨ApiErrorKind.timeout, 0,
        timeoutMessage ⟨AuthCfg.noAuth, 30, 2, defaultRetryConfig⟩ none, none⟩ ∧
    (request ⟨AuthCfg.noAuth, 30, 2, defaultRetryConfig⟩ worldTimeout none none
      false).attempts = 1 ∧
    (request ⟨AuthCfg.noAuth, 30, 2, defaultRetryConfig⟩ worldTimeout none none
      false).delays.length = 0 ∧
    2 ≤ (request ⟨AuthCfg.noAuth, 30, 2, defaultRetryConfig⟩
      (fun _ => TransportOutcome.networkExc) none none false).attempts ∧
    2 ≤ (request ⟨AuthCfg.noAuth, 30, 2, defaultRetryConfig⟩ world429 none none
      false).attempts := by
  have h := (claim3_timeout_short_circuit ⟨AuthCfg.noAuth, 30, 2, defaultRetryConfig⟩
    worldTimeout none none false).1 1 le_rfl (by decide)
    (by intro i h1 h2; exact absurd h2 (by omega)) rfl
  have h2 := (claim3_timeout_short_circuit ⟨AuthCfg.noAuth, 30, 2, defaultRetryConfig⟩
    (fun _ => TransportOutcome.networkExc) none none false).2.1 rfl (by decide)
  have h3 := (claim3_timeout_short_circuit ⟨AuthCfg.noAuth, 30, 2, defaultRetryConfig⟩
    world429 none none false).2.2
    ⟨⟨429, none, none, false⟩,
      ⟨ApiErrorKind.rateLimit, 429, "HTTP 429 error", none⟩, rfl, rfl, Or.inl rfl⟩
    (by decide)
  exact ⟨h.1, h.2.1, h.2.2, h2, h3⟩

/-- Claim C5, counterexample: with a callback credential whose value
changes between invocations and a server that always answers 500, a
2-attempt call invokes the callback exactly once and sends the attempt-1
token `A` on both physical attempts; the claim would require 2 invocations
and the token `B` on attempt 2. -/
theorem claim5_counterexample :
    (request ⟨AuthCfg.dynamic tokenAB, 30, 1, defaultRetryConfig⟩ world500 none
      none false).attempts = 2 ∧
    (request ⟨AuthCfg.dynamic tokenAB, 30, 1, defaultRetryConfig⟩ world500 none
      none false).token_calls = 1 ∧
    (request ⟨AuthCfg.dynamic tokenAB, 30, 1, defaultRetryConfig⟩ world500 none
      none false).sent =
      [[("Authorization", "Bearer A")], [("Authorization", "Bearer A")]] ∧
    tokenAB 1 = some "B" := by
  exact ⟨rfl, rfl, rfl, rfl⟩

/-- Claim C5 (amended): the token callback is consulted exactly once per
logical call, before the first attempt; every physical attempt of the call
(including retries) carries the headers built from that single
consultation, the callback's value at invocation 0. -/
theorem claim5_token_once_per_call (f : Nat → Option String) (t : ℚ)
    (retries : Nat) (rcfg : RetryConfig) (world : Nat → TransportOutcome)
    (query : Option (List (String × QueryVal))) (tmo : Option ℚ)
    (no_retry : Bool) :
    (request ⟨AuthCfg.dynamic f, t, retries, rcfg⟩ world query tmo
      no_retry).token_calls = 1 ∧
    (request ⟨AuthCfg.dynamic f, t, retries, rcfg⟩ world query tmo no_retry).sent =
      List.replicate
        (request ⟨AuthCfg.dynamic f, t, retries, rcfg⟩ world query tmo
          no_retry).attempts
        (build_headers (f 0)) := by
  constructor
  · rfl
  · have h := attemptLoop_sent rcfg world (build_headers (f 0))
      (if no_retry then 1 else retries + 1)
      (timeoutMessage ⟨AuthCfg.dynamic f, t, retries, rcfg⟩ tmo)
      (if no_retry then 1 else retries + 1) 1 [] [] le_rfl
    simpa using h

/-- Helper: a 429 response with a truthy unparseable `Retry-After` header
makes the error handler raise the conversion `ValueError`. -/
theorem handle_429_bad_header (r : Response) (h : String)
    (hst : r.status = 429) (hra : r.retryAfter = some h) (hne : h ≠ "")
    (hbad : pyInt h = none) :
    handle_error_response r =
      Except.error ("invalid literal for int with base 10: " ++ h) := by
  simp [handle_error_response, hst, retryMsOf, hra, pyTruthy, hne, hbad]

/-- Claim C10, counterexample: a 429 response carrying a `Retry-After`
header whose value is the empty string — not a parseable integer — is NOT
failed immediately as a `Network` error: the falsy header is treated as
absent, the response is classified `RateLimit` and retried to exhaustion
(3 attempts with `retries = 2`). -/
theorem claim10_counterexample :
    pyInt "" = none ∧
    (request ⟨AuthCfg.noAuth, 30, 2, defaultRetryConfig⟩ worldEmptyRetryAfter
      none none false).attempts = 3 ∧
    (request ⟨AuthCfg.noAuth, 30, 2, defaultRetryConfig⟩ worldEmptyRetryAfter
      none none false).result =
      Except.error ⟨ApiErrorKind.rateLimit, 429, "HTTP 429 error", none⟩ := by
  exact ⟨rfl, rfl, rfl⟩

/-- Claim C10 (amended): when a reached attempt yields a 429 response whose
`Retry-After` header carries a nonempty value that is not a parseable
integer, the conversion raises inside the attempt, the catch-all wrapper
fails the call immediately with a `Network`-kind error whose message begins
`Unexpected error:`, and the response is neither classified as `RateLimit`
nor retried (no further attempts, no backoff delay). -/
theorem claim10_unparseable_retry_after (cfg : Config)
    (world : Nat → TransportOutcome) (query : Option (List (String × QueryVal)))
    (tmo : Option ℚ) (no_retry : Bool) (k : Nat) (r : Response) (h : String)
    (hk1 : 1 ≤ k) (hkm : k ≤ (if no_retry then 1 else cfg.retries + 1))
    (hpre : ∀ i, 1 ≤ i → i < k → ContinueAt world i)
    (hw : world k = TransportOutcome.response r)
    (hst : r.status = 429) (hra : r.retryAfter = some h) (hne : h ≠ "")
    (hbad : pyInt h = none) :
    (request cfg world query tmo no_retry).result =
      Except.error ⟨ApiErrorKind.network, 0,
        "Unexpected error: " ++ ("invalid literal for int with base 10: " ++ h),
        none⟩ ∧
    (request cfg world query tmo no_retry).attempts = k ∧
    (request cfg world query tmo no_retry).delays.length = k - 1 := by
  have hres : (request cfg world query tmo no_retry).result =
      (attemptLoop cfg.retry_config world (build_headers (get_token cfg.auth 0).1)
        (if no_retry then 1 else cfg.retries + 1) (timeoutMessage cfg tmo) 1
        (if no_retry then 1 else cfg.retries + 1) [] []).result := rfl
  have hatt : (request cfg world query tmo no_retry).attempts =
      (attemptLoop cfg.retry_config world (build_headers (get_token cfg.auth 0).1)
        (if no_retry then 1 else cfg.retries + 1) (timeoutMessage cfg tmo) 1
        (if no_retry then 1 else cfg.retries + 1) [] []).attempts := rfl
  have hdel : (request cfg world query tmo no_retry).delays =
      (attemptLoop cfg.retry_config world (build_headers (get_token cfg.auth 0).1)
        (if no_retry then 1 else cfg.retries + 1) (timeoutMessage cfg tmo) 1
        (if no_retry then 1 else cfg.retries + 1) [] []).delays := rfl
  obtain ⟨ds2, hlen, heq⟩ := attemptLoop_reach cfg.retry_config world
    (build_headers (get_token cfg.auth 0).1)
    (if no_retry then 1 else cfg.retries + 1) (timeoutMessage cfg tmo)
    k hk1 hkm hpre
  have hterm := attemptLoop_term_handler cfg.retry_config world
    (build_headers (get_token cfg.auth 0).1)
    (if no_retry then 1 else cfg.retries + 1) (timeoutMessage cfg tmo)
    k ((if no_retry then 1 else cfg.retries + 1) - k) ds2
    (List.replicate (k - 1) (build_headers (get_token cfg.auth 0).1)) r
    ("invalid literal for int with base 10: " ++ h) hw
    (by omega)
    (handle_429_bad_header r h hst hra hne hbad)
  rw [hres, heq, hterm]
  rw [hatt, heq, hterm]
  rw [hdel, heq, hterm]
  exact ⟨rfl, rfl, hlen⟩

/-- Claim C10, witness: the amended claim at a concrete server answering
429 with `Retry-After: abc` on attempt 1 of a 3-attempt budget. -/
theorem claim10_witness :
    (request ⟨AuthCfg.noAuth, 30, 2, defaultRetryConfig⟩ worldBadRetryAfter none
      none false).result =
      Except.error ⟨ApiErrorKind.network, 0,
        "Unexpected error: " ++ ("invalid literal for int with base 10: " ++ "abc"),
        none⟩ ∧
    (request ⟨AuthCfg.noAuth, 30, 2, defaultRetryConfig⟩ worldBadRetryAfter none
      none false).attempts = 1 ∧
    (request ⟨AuthCfg.noAuth, 30, 2, defaultRetryConfig⟩ worldBadRetryAfter none
      none false).delays.length = 0 :=
  claim10_unparseable_retry_after ⟨AuthCfg.noAuth, 30, 2, defaultRetryConfig⟩
    worldBadRetryAfter none none false 1 ⟨429, none, some "abc", false⟩ "abc"
    le_rfl (by decide) (by intro i h1 h2; exact absurd h2 (by omega)) rfl rfl rfl
    (by decide) (by decide)

/-- Helper: a well-formed page contributes at least one entry to the
walk. -/
theorem specWalk_length_pos {T : Type} (p : Page T) (hwf : p.Wf) :
    1 ≤ p.specWalk.length := by
  cases p with
  | nil => exact absurd hwf (by simp [Page.Wf])
  | mk d i f => simp [Page.specWalk]

/-- Claim C7: for every well-formed page, `to_list()` returns the
concatenation, in page order, of the current page's items followed by the
items of each successive page fetched while `has_next` holds, invoking the
fetcher exactly once per subsequent page (`specWalk` lists the per-page
item lists of the walk, so the fetch count is one less than the number of
pages walked); on the concrete 3-page chain `page1` it returns the 3 items
in page order with exactly 2 fetches beyond the initial page. -/
theorem claim7_to_list :
    (∀ (T : Type) (p : Page T), p.Wf →
      p.to_list = p.specWalk.flatten ∧
      p.to_listF = (p.to_list, p.specWalk.length - 1)) ∧
    Page.to_list page1 = [10, 20, 30] ∧
    Page.to_listF page1 = ([10, 20, 30], 2) := by
  refine ⟨?_, rfl, rfl⟩
  intro T p
  induction p with
  | nil => intro h; exact absurd h (by simp [Page.Wf])
  | mk d i f ih =>
    intro hwf
    by_cases hn : i.has_next = true
    · have hq : (f (i.page + 1) i.page_size).Wf := hwf hn
      obtain ⟨h1, h2⟩ := ih (i.page + 1) i.page_size hq
      have hpos := specWalk_length_pos (f (i.page + 1) i.page_size) hq
      have hc : (Page.specWalk (f (i.page + 1) i.page_size)).length - 1 + 1 =
          (Page.specWalk (f (i.page + 1) i.page_size)).length := by omega
      constructor
      · simp [Page.to_list, Page.specWalk, hn, h1]
      · simp [Page.to_listF, Page.to_list, Page.specWalk, hn, h1, h2, hc]
    · constructor
      · simp [Page.to_list, Page.specWalk, hn]
      · simp [Page.to_listF, Page.to_list, Page.specWalk, hn]

/-- Claim C7, witness: the general walk property applied to the concrete
3-page chain. -/
theorem claim7_witness :
    Page.to_list page1 = (Page.specWalk page1).flatten ∧
    Page.to_listF page1 = (Page.to_list page1, (Page.specWalk page1).length - 1) :=
  claim7_to_list.1 Nat page1 (by simp [Page.Wf, page1, page2, page3])
